import Mathlib

/-!
# Discoat bridge core — shallow embedding and verification

A shallow embedding of the routing and delivery core of the Discoat
multi-platform chat-bridge daemon, together with theorems checking the
natural-language specification against the code.

Embedded components (each definition is translated from the named source
file):

* `src/core/utils/umf.js` — envelope (UMF) construction and validation;
* `src/addons/router/index.js` — `RouterAddon._routeMessage`, the fan-out
  with split horizon and trace-path loop guard;
* `src/core/infra/repository.js` — the named-export `class Repository`
  (the variant the kernel's `import { Repository }` binds), whose
  `getChannelLink` JOINs `channels` with `bridges` to return
  `{bridge_id, status}` and whose `getBridgeTopology` selects the
  channels of one bridge;
* the dedup addon (`BridgeDedup`) — fingerprint cache and the
  `_isDuplicate` flag;
* `src/core/utils/circuit_breaker.js` — `CircuitBreaker.fire` and its
  metrics;
* `src/core/kernel.js` — `Kernel.stop`, the graceful-shutdown sequence.

Impure primitives are made explicit parameters: `randomUUID()` becomes an
`id : String` argument, `Date.now()` a `now : Nat` argument.  JavaScript's
`x || d` fallback on strings/numbers (empty string and `0` are falsy) is
modelled by `jsOr` / `jsOrNat`.
-/

namespace Discoat

/-- JavaScript `x || d` for an optional string field: `undefined` and the
empty string both fall back to the default. -/
def jsOr (x : Option String) (d : String) : String :=
  match x with
  | some s => if s = "" then d else s
  | none => d

/-- JavaScript `x || d` for an optional numeric field: `undefined` and `0`
both fall back to the default. -/
def jsOrNat (x : Option Nat) (d : Nat) : Nat :=
  match x with
  | some v => if v = 0 then d else v
  | none => d

/-- Model of JavaScript `String.prototype.toLowerCase`: the simple
per-character lowercase mapping. -/
def toLowerCase (s : String) : String :=
  ⟨s.data.map Char.toLower⟩

/-! ## Envelope model (UMF) — `src/core/utils/umf.js` -/

/-- Model of `head.source`: origin information, as built by `createEnvelope`. -/
structure SourceInfo where
  platform : String
  channelId : String
  userId : String
  username : String
  avatar : Option String
deriving Repr, DecidableEq

/-- Model of `head.dest`: destination, set by the router on each outbound clone. -/
structure DestInfo where
  platform : String
  channelId : String
deriving Repr, DecidableEq

/-- Model of `head.replyTo`. -/
structure ReplyTo where
  parentId : String
  parentText : Option String
deriving Repr, DecidableEq

/-- Model of `body.rich`: optional structured block. -/
structure RichBlock where
  title : Option String
  description : Option String
  url : Option String
deriving Repr, DecidableEq

/-- A sanitized attachment record (output of `_sanitizeAttachment`). -/
structure Attachment where
  id : String
  url : String
  type : String
  mimeType : String
  size : Nat
  name : String
  localPath : Option String
deriving Repr, DecidableEq

/-- Model of `envelope.head`. -/
structure Head where
  id : String
  correlationId : String
  timestamp : Nat
  type : String
  source : SourceInfo
  replyTo : Option ReplyTo
  trace_path : List String
  dest : Option DestInfo
deriving Repr, DecidableEq

/-- Model of `envelope.body`. -/
structure Body where
  text : String
  raw : String
  rich : Option RichBlock
  attachments : List Attachment
deriving Repr, DecidableEq

/-- A UMF envelope.  `isDuplicate` models the dynamic `_isDuplicate`
property that the dedup addon sets on the shared object (absent = false). -/
structure Envelope where
  head : Head
  body : Body
  isDuplicate : Bool
deriving Repr, DecidableEq

/-- Raw (unsanitized) attachment parameters passed to `createEnvelope`. -/
structure AttachmentParams where
  id : Option String
  url : Option String
  type : Option String
  mimeType : Option String
  size : Option Nat
  name : Option String
  localPath : Option String
deriving Repr, DecidableEq

/-- The `source` parameter record of `createEnvelope`.  `platform` and
`channelId` are the fields the function requires to be truthy. -/
structure SourceParams where
  platform : String
  channelId : String
  userId : Option String
  username : Option String
  avatar : Option String
deriving Repr, DecidableEq

/-- The `body` parameter record of `createEnvelope`. -/
structure BodyParams where
  text : Option String
  raw : Option String
  rich : Option RichBlock
deriving Repr, DecidableEq

/-- The full parameter record of `createEnvelope`, with JS defaults made
explicit as `Option`s. -/
structure EnvelopeParams where
  type : Option String
  source : Option SourceParams
  body : Option BodyParams
  attachments : List AttachmentParams
  replyTo : Option ReplyTo
  correlationId : Option String
deriving Repr, DecidableEq

/-- Constant `UMF_TYPES.TEXT`, the default `type`. -/
def UMF_TYPES_TEXT : String := "text/plain"

/-- Constant `UMF_TYPES.FILE`, the default attachment `type`. -/
def UMF_TYPES_FILE : String := "application/octet-stream"

/-- Function `_sanitizeAttachment` from `umf.js`.  `randomUUID()` and `Date.now()`
are passed in as `freshId` and `now`. -/
def sanitizeAttachment (freshId : String) (now : Nat) (att : AttachmentParams) :
    Attachment :=
  { id := jsOr att.id freshId
    url := jsOr att.url ""
    type := jsOr att.type UMF_TYPES_FILE
    mimeType := jsOr att.mimeType "application/octet-stream"
    size := (att.size.getD 0)
    name := jsOr att.name ("media-" ++ toString now ++ ".bin")
    localPath := att.localPath }

/-- Function `createEnvelope` from `umf.js`.  Throws (returns `.error`) when
`source`, `source.platform` or `source.channelId` is falsy; otherwise
builds the envelope with `trace_path` initialized to the one-element list
`[platform]` (the bare lowercased platform name).  `id` stands for the
`randomUUID()` result and `now` for `Date.now()`. -/
def createEnvelope (p : EnvelopeParams) (id : String) (now : Nat) :
    Except String Envelope :=
  match p.source with
  | none => .error "[UMF] Fallo de validacion: source.platform y source.channelId son obligatorios."
  | some s =>
    if s.platform = "" ∨ s.channelId = "" then
      .error "[UMF] Fallo de validacion: source.platform y source.channelId son obligatorios."
    else
      let platform := toLowerCase s.platform
      .ok
        { head :=
            { id := id
              correlationId := jsOr p.correlationId id
              timestamp := now
              type := jsOr p.type UMF_TYPES_TEXT
              source :=
                { platform := platform
                  channelId := s.channelId
                  userId := jsOr s.userId "guest"
                  username := jsOr s.username "Unknown"
                  avatar := s.avatar }
              replyTo := p.replyTo
              trace_path := [platform]
              dest := none }
          body :=
            { text := jsOr (p.body.bind BodyParams.text) ""
              raw := jsOr (p.body.bind BodyParams.raw)
                       (jsOr (p.body.bind BodyParams.text) "")
              rich := p.body.bind BodyParams.rich
              attachments := p.attachments.map (sanitizeAttachment id now) }
          isDuplicate := false }

/-- Function `validateEnvelope` from `umf.js`.  On the typed embedding the
object/shape checks (`envelope` is an object, `head`, `body` and the
`trace_path` array exist) hold by construction; the remaining content
checks are the truthiness of `head.id`, `source.platform` and
`source.channelId`. -/
def validateEnvelope (envelope : Envelope) : Bool :=
  envelope.head.id ≠ "" &&
  envelope.head.source.platform ≠ "" &&
  envelope.head.source.channelId ≠ ""

/-! ## Repository — `src/core/infra/repository.js`

The kernel does `import { Repository } from './infra/repository.js'`, a
named import, so the class it binds is the named-export
`export class Repository` (constructor `(configInstance, logger)`).  Its
schema: `bridges(id PK, name, status DEFAULT 'on' CHECK(status IN
('on','off','paused')), created_at)` and `channels(id PK, bridge_id
REFERENCES bridges ON DELETE CASCADE, platform, native_id, config,
added_at, UNIQUE(platform, native_id))`.  The database value is the two
lists of rows; the timestamp columns are never read by the embedded
operations and are omitted. -/

/-- One row of the `channels` table (`added_at` omitted, unread). -/
structure ChannelRow where
  id : String
  platform : String
  native_id : String
  bridge_id : String
  config : String
deriving Repr, DecidableEq

/-- One row of the `bridges` table (`created_at` omitted, unread). -/
structure BridgeRow where
  id : String
  name : String
  status : String
deriving Repr, DecidableEq

/-- The embedded SQLite database state. -/
structure DB where
  bridges : List BridgeRow
  channels : List ChannelRow
deriving Repr, DecidableEq

/-- The value `getChannelLink` hands the router, which reads
`link.bridge_id` and `link.status`.  `status` is an `Option` because a JS
property access may be `undefined` on other repository shapes; the
named-export repository always supplies it from the JOIN. -/
structure ChannelLink where
  bridge_id : String
  status : Option String
deriving Repr, DecidableEq

/-- Method `Repository.getChannelLink` (prepared `stmtGetLink`):
`SELECT c.bridge_id, b.status FROM channels c JOIN bridges b ON
c.bridge_id = b.id WHERE c.platform = ? AND c.native_id = ?`.
`stmt.get` yields `undefined` (here `none`) when no channel row matches
or the JOIN finds no bridge row. -/
def Repository.getChannelLink (db : DB) (platform nativeId : String) :
    Option ChannelLink :=
  match db.channels.find?
      (fun c => c.platform = platform ∧ c.native_id = nativeId) with
  | none => none
  | some c =>
    match db.bridges.find? (fun b => b.id = c.bridge_id) with
    | none => none
    | some b => some { bridge_id := c.bridge_id, status := some b.status }

/-- Method `Repository.getBridgeTopology` (prepared `stmtGetTopology`):
`SELECT platform, native_id, config FROM channels WHERE bridge_id = ?`.
The embedding returns the matching rows whole; the columns the query does
not select are never read downstream. -/
def Repository.getBridgeTopology (db : DB) (bridgeId : String) :
    List ChannelRow :=
  db.channels.filter (fun r => r.bridge_id = bridgeId)

/-! ## Router — `src/addons/router/index.js`

`RouterAddon` receives its repository through the injected `context`; the
embedding therefore takes the repository as a record of the two functions
the router calls.  `repoOfDb` instantiates it with the actual
`Repository` above. -/

/-- The slice of the injected `context.repository` the router uses. -/
structure RepoIface where
  getChannelLink : String → String → Option ChannelLink
  getBridgeTopology : String → List ChannelRow

/-- The repository interface backed by the embedded SQLite `Repository`. -/
def repoOfDb (db : DB) : RepoIface :=
  { getChannelLink := Repository.getChannelLink db
    getBridgeTopology := Repository.getBridgeTopology db }

/-- One `queue.add` call made by the router: queue name, job id, payload. -/
structure EnqueueRec where
  queueName : String
  jobId : String
  envelope : Envelope
deriving Repr, DecidableEq

/-- The outbound clone the router builds for one target: a deep
(JSON round-trip) copy of the post-append envelope with `head.dest` set
and the target identifier pushed onto `head.trace_path`. -/
def mkOutboxEnvelope (env : Envelope) (target : ChannelRow) : Envelope :=
  { env with
      head :=
        { env.head with
            dest := some { platform := target.platform,
                           channelId := target.native_id }
            trace_path := env.head.trace_path ++
              [target.platform ++ ":" ++ target.native_id] } }

/-- One iteration of the router's fan-out loop: apply the split-horizon
check and the trace-path loop guard, and otherwise build the `queue.add`
call for this target.  `jobIdBase` is `outboxEnvelope.head.id || Date.now()`. -/
def routeTarget (sourceIdentifier : String) (tracePath : List String)
    (jobIdBase : String) (postEnv : Envelope) (target : ChannelRow) :
    Option EnqueueRec :=
  let targetIdentifier := target.platform ++ ":" ++ target.native_id
  if targetIdentifier = sourceIdentifier then
    none
  else if targetIdentifier ∈ tracePath then
    none
  else
    some { queueName := "queue_" ++ target.platform ++ "_out"
           jobId := jobIdBase ++ "-" ++ target.platform ++ "-" ++ target.native_id
           envelope := mkOutboxEnvelope postEnv target }

/-- Method `RouterAddon._routeMessage`.  Returns the envelope as left after the
in-place mutations (`trace_path` initialization and source append) together
with the list of `queue.add` calls, in order.  `now` stands for
`Date.now()` in the job-id fallback. -/
def routeMessage (repo : RepoIface) (now : Nat) (envelope : Envelope) :
    Envelope × List EnqueueRec :=
  let source := envelope.head.source
  if source.platform = "" ∨ source.channelId = "" then
    (envelope, [])
  else
    match repo.getChannelLink source.platform source.channelId with
    | none => (envelope, [])
    | some link =>
      if link.status ≠ some "on" then
        (envelope, [])
      else
        let targets := repo.getBridgeTopology link.bridge_id
        if targets = [] then
          (envelope, [])
        else
          let sourceIdentifier := source.platform ++ ":" ++ source.channelId
          let tracePath :=
            if sourceIdentifier ∈ envelope.head.trace_path then
              envelope.head.trace_path
            else
              envelope.head.trace_path ++ [sourceIdentifier]
          let postEnv :=
            { envelope with head := { envelope.head with trace_path := tracePath } }
          let enqueues :=
            targets.filterMap
              (routeTarget sourceIdentifier tracePath
                (jsOr (some envelope.head.id) (toString now)) postEnv)
          (postEnv, enqueues)

/-! ## Dedup addon — `BridgeDedup`

`BridgeDedup.start` registers a `message.ingress` listener that computes
`sha256(text:userId:channelId)` and, on a cache hit, sets
`umf._isDuplicate = true` and returns; on a miss it stores the
fingerprint.  The sha256 hex digest is modelled by the keyed string it
hashes (the `text:userId:channelId` concatenation), a collision-free
stand-in. -/

/-- The dedup fingerprint.  Models the sha256 hex digest of
`text:userId:channelId` by the keyed string itself. -/
def dedupFingerprint (umf : Envelope) : String :=
  umf.body.text ++ ":" ++ umf.head.source.userId ++ ":" ++
    umf.head.source.channelId

/-- The in-memory dedup cache: fingerprint → insert time (ms). -/
structure DedupCache where
  entries : List (String × Nat)
deriving Repr, DecidableEq

/-- The `message.ingress` listener of `BridgeDedup`: flags the shared
envelope object as duplicate on a cache hit, otherwise records the
fingerprint. -/
def BridgeDedup.onIngress (cache : DedupCache) (now : Nat) (umf : Envelope) :
    Envelope × DedupCache :=
  let h := dedupFingerprint umf
  if cache.entries.any (fun e => e.1 = h) then
    ({ umf with isDuplicate := true }, cache)
  else
    (umf, { entries := (h, now) :: cache.entries })

/-! ## Circuit breaker — `src/core/utils/circuit_breaker.js` -/

/-- The breaker states. -/
inductive CBState where
  | CLOSED
  | OPEN
  | HALF_OPEN
deriving Repr, DecidableEq

/-- The telemetry counters. -/
structure CBMetrics where
  total : Nat
  success : Nat
  failed : Nat
  rejected : Nat
deriving Repr, DecidableEq

/-- The mutable state of one `CircuitBreaker` instance. -/
structure CircuitBreaker where
  state : CBState
  failureCount : Nat
  nextAttempt : Nat
  failureThreshold : Nat
  resetTimeout : Nat
  requestTimeout : Nat
  metrics : CBMetrics
deriving Repr, DecidableEq

/-- The constructor's `options` object. -/
structure CBOptions where
  failureThreshold : Option Nat
  resetTimeout : Option Nat
  requestTimeout : Option Nat
deriving Repr, DecidableEq

/-- Constructor `new CircuitBreaker(serviceName, options)`: the JS `||` defaults are
`failureThreshold = 5`, `resetTimeout = 30000`, `requestTimeout = 5000`. -/
def CircuitBreaker.mk' (options : CBOptions) : CircuitBreaker :=
  { state := .CLOSED
    failureCount := 0
    nextAttempt := 0
    failureThreshold := jsOrNat options.failureThreshold 5
    resetTimeout := jsOrNat options.resetTimeout 30000
    requestTimeout := jsOrNat options.requestTimeout 5000
    metrics := { total := 0, success := 0, failed := 0, rejected := 0 } }

/-- How the wrapped command resolves when it is actually executed:
it fulfills, it rejects, or `_executeWithTimeout` fires the
`requestTimeout` timer first and rejects with the TIMEOUT error. -/
inductive CmdOutcome where
  | ok
  | err
  | timeout
deriving Repr, DecidableEq

/-- What `fire` did: rejected preemptively because the circuit was OPEN
(throwing `CircuitOpen`, or returning `fallback(error)` when a fallback
was passed), returned the command's result, or propagated the command's
failure (again via the fallback when present). -/
inductive FireRes where
  | rejectedOpen
  | succeeded
  | failedThrew
deriving Repr, DecidableEq

/-- Method `CircuitBreaker._transition`: set the new state; entering OPEN arms
`nextAttempt = now + resetTimeout`. -/
def CircuitBreaker.transition (cb : CircuitBreaker) (s : CBState) (now : Nat) :
    CircuitBreaker :=
  { cb with
      state := s
      nextAttempt := if s = .OPEN then now + cb.resetTimeout else cb.nextAttempt }

/-- Method `CircuitBreaker._onSuccess`: count the success, reset the failure
count, and close the circuit if this was the HALF_OPEN probe. -/
def CircuitBreaker.onSuccess (cb : CircuitBreaker) (now : Nat) : CircuitBreaker :=
  let cb := { cb with
      metrics := { cb.metrics with success := cb.metrics.success + 1 }
      failureCount := 0 }
  if cb.state = .HALF_OPEN then cb.transition .CLOSED now else cb

/-- Method `CircuitBreaker._onFailure`: count the failure; open the circuit when
failing the HALF_OPEN probe or on reaching `failureThreshold`. -/
def CircuitBreaker.onFailure (cb : CircuitBreaker) (now : Nat) : CircuitBreaker :=
  let cb := { cb with
      metrics := { cb.metrics with failed := cb.metrics.failed + 1 }
      failureCount := cb.failureCount + 1 }
  if cb.state = .HALF_OPEN ∨ cb.failureCount ≥ cb.failureThreshold then
    cb.transition .OPEN now
  else
    cb

/-- The shared tail of `fire`: run the command under
`_executeWithTimeout` and dispatch to `_onSuccess` / `_onFailure`. -/
def CircuitBreaker.execute (cb : CircuitBreaker) (now : Nat)
    (outcome : CmdOutcome) : CircuitBreaker × FireRes :=
  match outcome with
  | .ok => (cb.onSuccess now, .succeeded)
  | .err => (cb.onFailure now, .failedThrew)
  | .timeout => (cb.onFailure now, .failedThrew)

/-- Method `CircuitBreaker.fire`.  Returns the new breaker state, the result
kind, and whether the wrapped command was executed at all.  `now` stands
for `Date.now()`; `outcome` for how the command would resolve if run. -/
def CircuitBreaker.fire (cb : CircuitBreaker) (now : Nat)
    (outcome : CmdOutcome) : CircuitBreaker × FireRes × Bool :=
  let cb := { cb with metrics := { cb.metrics with total := cb.metrics.total + 1 } }
  if cb.state = .OPEN then
    if now ≥ cb.nextAttempt then
      let cb := cb.transition .HALF_OPEN now
      let (cb, r) := cb.execute now outcome
      (cb, r, true)
    else
      ({ cb with metrics := { cb.metrics with rejected := cb.metrics.rejected + 1 } },
       .rejectedOpen, false)
  else
    let (cb, r) := cb.execute now outcome
    (cb, r, true)

/-! ## Kernel shutdown — `src/core/kernel.js` (`Kernel.stop`)

After a successful `init` every subsystem is present, so the
`if (this.context.X)` guards are all taken.  The five `await`ed close
steps run sequentially inside one `try` block; the first rejection jumps
to the `catch`, which logs and rethrows. -/

/-- The subsystems `Kernel.stop` closes, in the order the code closes
them. -/
inductive Subsystem where
  | plugins
  | queue
  | repository
  | storage
  | bus
deriving Repr, DecidableEq

/-- Whether each subsystem's close call succeeds. -/
structure StopResults where
  pluginsStop : Bool
  queueDisconnect : Bool
  repoDisconnect : Bool
  storageDisconnect : Bool
  busDisconnect : Bool
deriving Repr, DecidableEq

/-- Method `Kernel.stop`: returns the subsystems whose close was attempted, in
order, and whether the sequence completed cleanly (`false` = the `catch`
rethrew). -/
def Kernel.stop (r : StopResults) : List Subsystem × Bool :=
  if ¬ r.pluginsStop then ([.plugins], false)
  else if ¬ r.queueDisconnect then ([.plugins, .queue], false)
  else if ¬ r.repoDisconnect then ([.plugins, .queue, .repository], false)
  else if ¬ r.storageDisconnect then
    ([.plugins, .queue, .repository, .storage], false)
  else if ¬ r.busDisconnect then
    ([.plugins, .queue, .repository, .storage, .bus], false)
  else
    ([.plugins, .queue, .repository, .storage, .bus], true)

/-! ## Concrete topologies and envelopes for the spec's end-to-end cases -/

/-- The database of case S1: bridge `B` with status `on` and member
channels `discord:C1`, `telegram:T1`, `whatsapp:W1`.  The channel-row
primary keys are arbitrary (`linkChannelToBridge` generates UUIDs);
nothing reads them. -/
def dbS1 : DB :=
  { bridges := [{ id := "B", name := "test-bridge", status := "on" }]
    channels :=
      [ { id := "discord:C1", platform := "discord", native_id := "C1",
          bridge_id := "B", config := "{}" }
      , { id := "telegram:T1", platform := "telegram", native_id := "T1",
          bridge_id := "B", config := "{}" }
      , { id := "whatsapp:W1", platform := "whatsapp", native_id := "W1",
          bridge_id := "B", config := "{}" } ] }

/-- A minimal head for scenario envelopes. -/
def mkTestEnvelope (platform channelId userId text : String)
    (tracePath : List String) : Envelope :=
  { head :=
      { id := "env-1"
        correlationId := "env-1"
        timestamp := 0
        type := UMF_TYPES_TEXT
        source :=
          { platform := platform, channelId := channelId, userId := userId,
            username := "Unknown", avatar := none }
        replyTo := none
        trace_path := tracePath
        dest := none }
    body := { text := text, raw := text, rich := none, attachments := [] }
    isDuplicate := false }

/-- Case S1 ingress: from `discord:C1`, text `"hi"`, trace path as
`createEnvelope` initializes it. -/
def envS1 : Envelope := mkTestEnvelope "discord" "C1" "u1" "hi" ["discord"]

/-- The S1 topology as the named-export repository serves it: the JOIN
returns `{bridge_id := "B", status := some "on"}` for each member
channel. -/
def repoS1on : RepoIface := repoOfDb dbS1

/-- Case S2 ingress: source `telegram:T1`, arriving trace path
`["discord:C1", "telegram:T1"]`. -/
def envS2 : Envelope :=
  mkTestEnvelope "telegram" "T1" "u1" "hi" ["discord:C1", "telegram:T1"]

/-- The database of case S2: bridge `B` with status `on`, containing
exactly `telegram:T1` and `discord:C1`. -/
def dbS2 : DB :=
  { bridges := [{ id := "B", name := "test-bridge", status := "on" }]
    channels :=
      [ { id := "telegram:T1", platform := "telegram", native_id := "T1",
          bridge_id := "B", config := "{}" }
      , { id := "discord:C1", platform := "discord", native_id := "C1",
          bridge_id := "B", config := "{}" } ] }

/-- The S2 topology served by the named-export repository. -/
def repoS2on : RepoIface := repoOfDb dbS2

/-! ## Helper lemmas about the router -/

/-- A successful `routeTarget` passed both guards and is the canonical
clone for its target. -/
theorem routeTarget_eq_some {s : String} {tp : List String} {jb : String}
    {postEnv : Envelope} {t : ChannelRow} {enq : EnqueueRec}
    (h : routeTarget s tp jb postEnv t = some enq) :
    (t.platform ++ ":" ++ t.native_id) ≠ s ∧
    (t.platform ++ ":" ++ t.native_id) ∉ tp ∧
    enq = { queueName := "queue_" ++ t.platform ++ "_out"
            jobId := jb ++ "-" ++ t.platform ++ "-" ++ t.native_id
            envelope := mkOutboxEnvelope postEnv t } := by
  unfold routeTarget at h
  dsimp only at h
  split at h
  · exact absurd h (by simp)
  · split at h
    · exact absurd h (by simp)
    · exact ⟨by assumption, by assumption, (Option.some_inj.mp h).symm⟩

/-- The trace path after the router's source append. -/
def appendedTracePath (env : Envelope) : List String :=
  let sourceIdentifier :=
    env.head.source.platform ++ ":" ++ env.head.source.channelId
  if sourceIdentifier ∈ env.head.trace_path then env.head.trace_path
  else env.head.trace_path ++ [sourceIdentifier]

/-- The envelope as the router leaves it when it reaches the fan-out. -/
def appendedEnv (env : Envelope) : Envelope :=
  { env with head := { env.head with trace_path := appendedTracePath env } }

/-- Method `_routeMessage` either drops the envelope unchanged (missing source
fields, unknown channel, status gate, empty topology) or resolves a link
whose status is `on` and fans out over the topology via `routeTarget`. -/
theorem routeMessage_cases (repo : RepoIface) (now : Nat) (env : Envelope) :
    routeMessage repo now env = (env, []) ∨
    ∃ link,
      repo.getChannelLink env.head.source.platform env.head.source.channelId
        = some link ∧
      link.status = some "on" ∧
      routeMessage repo now env =
        (appendedEnv env,
         (repo.getBridgeTopology link.bridge_id).filterMap
           (routeTarget
             (env.head.source.platform ++ ":" ++ env.head.source.channelId)
             (appendedTracePath env)
             (jsOr (some env.head.id) (toString now))
             (appendedEnv env))) := by
  unfold routeMessage
  dsimp only
  split
  · exact Or.inl rfl
  · split
    · exact Or.inl rfl
    · rename_i link _
      split
      · exact Or.inl rfl
      · rename_i hst
        split
        · exact Or.inl rfl
        · refine Or.inr ⟨link, by assumption, ?_, rfl⟩
          simpa using hst

/-- The source identifier belongs to the appended trace path. -/
theorem sourceIdentifier_mem_appendedTracePath (env : Envelope) :
    (env.head.source.platform ++ ":" ++ env.head.source.channelId)
      ∈ appendedTracePath env := by
  unfold appendedTracePath
  dsimp only
  split
  · assumption
  · simp

/-- The arriving trace path embeds into the appended one. -/
theorem mem_appendedTracePath_of_mem {env : Envelope} {x : String}
    (h : x ∈ env.head.trace_path) : x ∈ appendedTracePath env := by
  unfold appendedTracePath
  dsimp only
  split
  · exact h
  · exact List.mem_append_left _ h

/-- The source append preserves `Nodup`. -/
theorem appendedTracePath_nodup {env : Envelope}
    (h : env.head.trace_path.Nodup) : (appendedTracePath env).Nodup := by
  unfold appendedTracePath
  dsimp only
  split
  · exact h
  · rename_i hmem
    rw [List.nodup_append]
    exact ⟨h, List.nodup_singleton _,
      fun a ha hb => by
        rw [List.mem_singleton] at hb
        exact hmem (hb ▸ ha)⟩

/-! ## Claim theorems -/

/-- C1: on the S1 topology — bridge `B` with status `on` and member
channels `discord:C1`, `telegram:T1`, `whatsapp:W1`, served by the
named-export repository the kernel imports — every ingress envelope from
`discord:C1` (with the `trace_path` `createEnvelope` gives a fresh
Discord ingress) produces exactly two enqueues: `queue_telegram_out` with
`dest = {telegram, T1}` and `queue_whatsapp_out` with
`dest = {whatsapp, W1}`, and no enqueue toward any Discord queue. -/
theorem c1_s1_fanout_two_enqueues (env : Envelope) (now : Nat)
    (hp : env.head.source.platform = "discord")
    (hc : env.head.source.channelId = "C1")
    (htp : env.head.trace_path = ["discord"]) :
    ((routeMessage (repoOfDb dbS1) now env).2.map
        (fun e => (e.queueName, e.envelope.head.dest))
      = [("queue_telegram_out",
            some { platform := "telegram", channelId := "T1" }),
         ("queue_whatsapp_out",
            some { platform := "whatsapp", channelId := "W1" })]) ∧
    ∀ enq ∈ (routeMessage (repoOfDb dbS1) now env).2,
      enq.queueName ≠ "queue_discord_out" ∧
      ∀ d : DestInfo, enq.envelope.head.dest = some d →
        d.platform ≠ "discord" := by
  obtain ⟨⟨id, corr, ts, ty, ⟨plat, chan, uid, uname, av⟩, rep, tp, dst⟩,
    bd, dup⟩ := env
  dsimp only at hp hc htp
  subst hp
  subst hc
  subst htp
  have hmap :
      (routeMessage (repoOfDb dbS1) now
          ⟨⟨id, corr, ts, ty, ⟨"discord", "C1", uid, uname, av⟩, rep,
            ["discord"], dst⟩, bd, dup⟩).2.map
          (fun e => (e.queueName, e.envelope.head.dest))
        = [("queue_telegram_out",
              some { platform := "telegram", channelId := "T1" }),
           ("queue_whatsapp_out",
              some { platform := "whatsapp", channelId := "W1" })] := rfl
  refine ⟨hmap, ?_⟩
  intro enq henq
  have hm := List.mem_map_of_mem
    (fun e : EnqueueRec => (e.queueName, e.envelope.head.dest)) henq
  rw [hmap] at hm
  simp only [List.mem_cons, List.not_mem_nil, or_false] at hm
  rcases hm with hm | hm <;>
    [ { have hq : enq.queueName = "queue_telegram_out" :=
          congrArg Prod.fst hm
        have hd : enq.envelope.head.dest =
            some { platform := "telegram", channelId := "T1" } :=
          congrArg Prod.snd hm
        refine ⟨by rw [hq]; decide, ?_⟩
        intro d hdd
        rw [hd] at hdd
        rw [← Option.some_inj.mp hdd]
        decide } ;
      { have hq : enq.queueName = "queue_whatsapp_out" :=
          congrArg Prod.fst hm
        have hd : enq.envelope.head.dest =
            some { platform := "whatsapp", channelId := "W1" } :=
          congrArg Prod.snd hm
        refine ⟨by rw [hq]; decide, ?_⟩
        intro d hdd
        rw [hd] at hdd
        rw [← Option.some_inj.mp hdd]
        decide } ]

/-- Witness for C1 at the concrete S1 ingress envelope. -/
theorem c1_s1_fanout_two_enqueues_witness :
    (routeMessage (repoOfDb dbS1) 0 envS1).2.map
        (fun e => (e.queueName, e.envelope.head.dest))
      = [("queue_telegram_out",
            some { platform := "telegram", channelId := "T1" }),
         ("queue_whatsapp_out",
            some { platform := "whatsapp", channelId := "W1" })] :=
  (c1_s1_fanout_two_enqueues envS1 0 rfl rfl rfl).1

/-- C2: for every injected repository and every arriving envelope with
duplicate-free `trace_path`, each enqueue the router makes targets a
destination whose `platform:channelId` token is in neither the arriving
nor the post-append trace path, and the enqueued clone's `trace_path` has
no duplicates; moreover the concrete S2 envelope (source `telegram:T1`,
`trace_path = ["discord:C1", "telegram:T1"]`, bridge containing exactly
those two channels) produces zero enqueues. -/
theorem c2_loop_guard_no_duplicate_trace (repo : RepoIface) (now : Nat)
    (env : Envelope) (h : env.head.trace_path.Nodup) :
    (∀ enq ∈ (routeMessage repo now env).2,
       ∃ d : DestInfo, enq.envelope.head.dest = some d ∧
         (d.platform ++ ":" ++ d.channelId) ∉ env.head.trace_path ∧
         (d.platform ++ ":" ++ d.channelId)
           ∉ (routeMessage repo now env).1.head.trace_path ∧
         enq.envelope.head.trace_path.Nodup) ∧
    (routeMessage repoS2on 0 envS2).2 = [] := by
  refine ⟨?_, by decide⟩
  intro enq henq
  rcases routeMessage_cases repo now env with hdrop | ⟨link, _, _, hrun⟩
  · rw [hdrop] at henq
    exact absurd henq (by simp)
  · rw [hrun] at henq
    simp only [List.mem_filterMap] at henq
    obtain ⟨t, _, ht⟩ := henq
    obtain ⟨hne, hnotin, henqeq⟩ := routeTarget_eq_some ht
    refine ⟨{ platform := t.platform, channelId := t.native_id }, ?_, ?_, ?_, ?_⟩
    · rw [henqeq]; rfl
    · exact fun hx => hnotin (mem_appendedTracePath_of_mem hx)
    · rw [hrun]
      exact hnotin
    · rw [henqeq]
      show ((appendedTracePath env) ++ [t.platform ++ ":" ++ t.native_id]).Nodup
      rw [List.nodup_append]
      exact ⟨appendedTracePath_nodup h, List.nodup_singleton _,
        fun a ha hb => by
          rw [List.mem_singleton] at hb
          exact hnotin (hb ▸ ha)⟩

/-- Witness for C2 at the S2 input. -/
theorem c2_loop_guard_no_duplicate_trace_witness :
    envS2.head.trace_path.Nodup ∧ (routeMessage repoS2on 0 envS2).2 = [] :=
  ⟨by decide, (c2_loop_guard_no_duplicate_trace repoS2on 0 envS2 (by decide)).2⟩

/-- The S5 ingress envelope: `(text, userId, channelId) = ("ping","u1","C1")`
from `discord:C1`. -/
def envPing : Envelope := mkTestEnvelope "discord" "C1" "u1" "ping" ["discord"]

/-- The dedup cache after the first S5 envelope passed through. -/
def dedupCache1 : DedupCache := (BridgeDedup.onIngress ⟨[]⟩ 0 envPing).2

/-- The second, identical S5 envelope as the dedup listener leaves it 10 s
later: flagged `_isDuplicate`. -/
def envPingFlagged : Envelope :=
  (BridgeDedup.onIngress dedupCache1 10000 envPing).1

/-- C3: the dedup listener does flag the second of two identical
envelopes 10 s apart (`_isDuplicate = true`), and the first routes
normally (two enqueues on the S1 topology seen through a status-carrying
link), but the flagged duplicate still produces the same two enqueues:
`_routeMessage` never reads `_isDuplicate`, so the suppression the claim
describes does not happen. -/
theorem c3_duplicate_flag_ignored_by_router :
    (BridgeDedup.onIngress ⟨[]⟩ 0 envPing).1.isDuplicate = false ∧
    envPingFlagged.isDuplicate = true ∧
    (routeMessage repoS1on 0 envPing).2.length = 2 ∧
    (routeMessage repoS1on 0 envPingFlagged).2.length = 2 :=
  ⟨by decide, by decide, by decide, by decide⟩

/-- A concrete `createEnvelope` parameter record with non-empty
`source.platform = "Discord"` and `source.channelId = "C1"`. -/
def sC4 : SourceParams :=
  { platform := "Discord", channelId := "C1", userId := some "u1",
    username := none, avatar := none }

/-- The parameter record wrapping `sC4`. -/
def pC4 : EnvelopeParams :=
  { type := none, source := some sC4, body := some
      { text := some "hi", raw := none, rich := none },
    attachments := [], replyTo := none, correlationId := none }

/-- C4 counterexample: `createEnvelope` on `pC4` initializes
`head.trace_path` to `["discord"]` — the bare lowercased platform name —
whose only (hence first) element differs from the source identifier
`"discord:C1"`, refuting the claim that `trace_path` starts as the
one-element list containing the source identifier. -/
theorem c4_counterexample_trace_path_bare_platform :
    (createEnvelope pC4 "id-1" 0).toOption.map (fun e => e.head.trace_path)
      = some ["discord"] ∧
    (["discord"] : List String) ≠ ["discord:C1"] :=
  ⟨by decide, by decide⟩

/-- C4 (amended): `createEnvelope` initializes `head.trace_path` to the
one-element list holding the bare lowercased platform name; and routing
either leaves the envelope unchanged (drop) or ends with the source
identifier `platform:channelId` as an element — not necessarily the
first — of `head.trace_path`. -/
theorem c4_trace_path_init_and_source_membership :
    (∀ (p : EnvelopeParams) (id : String) (now : Nat) (s : SourceParams)
       (env : Envelope), p.source = some s →
         createEnvelope p id now = .ok env →
         env.head.trace_path = [toLowerCase s.platform]) ∧
    (∀ (repo : RepoIface) (now : Nat) (env : Envelope),
       (routeMessage repo now env).1 = env ∨
       (env.head.source.platform ++ ":" ++ env.head.source.channelId)
         ∈ (routeMessage repo now env).1.head.trace_path) := by
  constructor
  · intro p id now s env hs hok
    simp only [createEnvelope, hs] at hok
    split at hok
    · exact absurd hok (by simp)
    · injection hok with h
      rw [← h]
  · intro repo now env
    rcases routeMessage_cases repo now env with hdrop | ⟨link, _, _, hrun⟩
    · rw [hdrop]
      exact Or.inl rfl
    · rw [hrun]
      exact Or.inr (sourceIdentifier_mem_appendedTracePath env)

/-- The envelope `createEnvelope` builds from `pC4` with id `"id-1"` at
time `0`. -/
def envC4built : Envelope :=
  { head :=
      { id := "id-1", correlationId := "id-1", timestamp := 0,
        type := "text/plain",
        source := { platform := "discord", channelId := "C1",
                    userId := "u1", username := "Unknown", avatar := none },
        replyTo := none, trace_path := ["discord"], dest := none }
    body := { text := "hi", raw := "hi", rich := none, attachments := [] }
    isDuplicate := false }

/-- Witness for C4 at the concrete record `pC4` and the S1 route. -/
theorem c4_trace_path_init_and_source_membership_witness :
    envC4built.head.trace_path = [toLowerCase "Discord"] ∧
    ((routeMessage repoS1on 0 envS1).1 = envS1 ∨
      (envS1.head.source.platform ++ ":" ++ envS1.head.source.channelId)
        ∈ (routeMessage repoS1on 0 envS1).1.head.trace_path) :=
  ⟨c4_trace_path_init_and_source_membership.1 pC4 "id-1" 0 sC4 envC4built
      rfl rfl,
   c4_trace_path_init_and_source_membership.2 repoS1on 0 envS1⟩

/-- Lowercasing maps only characters, so it sends exactly the empty string
to the empty string. -/
theorem toLowerCase_eq_empty_iff (s : String) :
    toLowerCase s = "" ↔ s = "" := by
  unfold toLowerCase
  rw [String.ext_iff, String.ext_iff]
  show s.data.map Char.toLower = ([] : List Char) ↔ s.data = []
  simp

/-- C8: for every parameter record whose `source` carries non-empty
`platform` and `channelId`, `createEnvelope` succeeds (the `randomUUID`
result `id` being non-empty) and the built envelope passes
`validateEnvelope`. -/
theorem c8_createEnvelope_validates (p : EnvelopeParams) (id : String)
    (now : Nat) (s : SourceParams) (hs : p.source = some s)
    (hplat : s.platform ≠ "") (hchan : s.channelId ≠ "") (hid : id ≠ "") :
    ∃ env, createEnvelope p id now = .ok env ∧ validateEnvelope env = true := by
  simp only [createEnvelope, hs]
  rw [if_neg (by simp [hplat, hchan])]
  refine ⟨_, rfl, ?_⟩
  simp only [validateEnvelope]
  simp only [Bool.and_eq_true, decide_eq_true_eq]
  exact ⟨⟨hid, fun h => hplat ((toLowerCase_eq_empty_iff s.platform).mp h)⟩,
    hchan⟩

/-- Witness for C8 at the concrete record `pC4`. -/
theorem c8_createEnvelope_validates_witness :
    ∃ env, createEnvelope pC4 "id-1" 0 = .ok env ∧
      validateEnvelope env = true :=
  c8_createEnvelope_validates pC4 "id-1" 0 sC4 rfl (by decide) (by decide)
    (by decide)

/-- C9: the router's fan-out is observationally a deep clone.  The
post-routing source envelope agrees with the arriving one on every field
except possibly `head.trace_path`; each enqueued clone agrees with the
post-routing envelope on every field except `head.dest` (set to its own
target) and `head.trace_path` (the shared post-append path extended by its
own target token), so no clone's state is shared with a sibling or with
the original. -/
theorem c9_fanout_clones_are_deep (repo : RepoIface) (now : Nat)
    (env : Envelope) :
    ((routeMessage repo now env).1.head.id = env.head.id ∧
     (routeMessage repo now env).1.head.correlationId
       = env.head.correlationId ∧
     (routeMessage repo now env).1.head.timestamp = env.head.timestamp ∧
     (routeMessage repo now env).1.head.type = env.head.type ∧
     (routeMessage repo now env).1.head.source = env.head.source ∧
     (routeMessage repo now env).1.head.replyTo = env.head.replyTo ∧
     (routeMessage repo now env).1.head.dest = env.head.dest ∧
     (routeMessage repo now env).1.body = env.body ∧
     (routeMessage repo now env).1.isDuplicate = env.isDuplicate) ∧
    (∀ enq ∈ (routeMessage repo now env).2,
       ∃ d : DestInfo,
         enq.envelope.head.dest = some d ∧
         enq.envelope.head.trace_path
           = (routeMessage repo now env).1.head.trace_path
               ++ [d.platform ++ ":" ++ d.channelId] ∧
         enq.envelope.head.id = (routeMessage repo now env).1.head.id ∧
         enq.envelope.head.correlationId
           = (routeMessage repo now env).1.head.correlationId ∧
         enq.envelope.head.timestamp
           = (routeMessage repo now env).1.head.timestamp ∧
         enq.envelope.head.type = (routeMessage repo now env).1.head.type ∧
         enq.envelope.head.source
           = (routeMessage repo now env).1.head.source ∧
         enq.envelope.head.replyTo
           = (routeMessage repo now env).1.head.replyTo ∧
         enq.envelope.body = (routeMessage repo now env).1.body ∧
         enq.envelope.isDuplicate
           = (routeMessage repo now env).1.isDuplicate) := by
  rcases routeMessage_cases repo now env with hdrop | ⟨link, _, _, hrun⟩
  · rw [hdrop]
    exact ⟨⟨rfl, rfl, rfl, rfl, rfl, rfl, rfl, rfl, rfl⟩, by simp⟩
  · rw [hrun]
    refine ⟨⟨rfl, rfl, rfl, rfl, rfl, rfl, rfl, rfl, rfl⟩, ?_⟩
    intro enq henq
    simp only [List.mem_filterMap] at henq
    obtain ⟨t, _, ht⟩ := henq
    obtain ⟨_, _, henqeq⟩ := routeTarget_eq_some ht
    subst henqeq
    exact ⟨{ platform := t.platform, channelId := t.native_id },
      rfl, rfl, rfl, rfl, rfl, rfl, rfl, rfl, rfl, rfl⟩

/-! ## Circuit-breaker claim theorems -/

/-- Method `_onFailure` adds one to the `failed` metric and the failure count,
and never touches `success`/`rejected`; the possible transition to OPEN
changes only `state` and `nextAttempt`. -/
theorem onFailure_counts (cb : CircuitBreaker) (now : Nat) :
    (cb.onFailure now).metrics.failed = cb.metrics.failed + 1 ∧
    (cb.onFailure now).failureCount = cb.failureCount + 1 ∧
    (cb.onFailure now).metrics.success = cb.metrics.success ∧
    (cb.onFailure now).metrics.rejected = cb.metrics.rejected ∧
    (cb.onFailure now).metrics.total = cb.metrics.total := by
  simp only [CircuitBreaker.onFailure, CircuitBreaker.transition]
  split <;> simp

/-- Method `_onSuccess` adds one to the `success` metric, zeroes the failure
count, and never touches `failed`/`rejected`/`total`. -/
theorem onSuccess_counts (cb : CircuitBreaker) (now : Nat) :
    (cb.onSuccess now).metrics.success = cb.metrics.success + 1 ∧
    (cb.onSuccess now).failureCount = 0 ∧
    (cb.onSuccess now).metrics.failed = cb.metrics.failed ∧
    (cb.onSuccess now).metrics.rejected = cb.metrics.rejected ∧
    (cb.onSuccess now).metrics.total = cb.metrics.total := by
  simp only [CircuitBreaker.onSuccess, CircuitBreaker.transition]
  split <;> simp

/-- The breaker of case S4: Telegram breaker OPEN with `nextAttempt`
30 s ahead of `now = 0`. -/
def cbOpenTelegram : CircuitBreaker :=
  { state := .OPEN, failureCount := 5, nextAttempt := 30000,
    failureThreshold := 5, resetTimeout := 30000, requestTimeout := 5000,
    metrics := { total := 5, success := 0, failed := 5, rejected := 0 } }

/-- The S4 breaker after one, two and three `fire` calls at `now = 0`. -/
def cbS4after1 : CircuitBreaker := (cbOpenTelegram.fire 0 .ok).1

/-- See `cbS4after1`. -/
def cbS4after2 : CircuitBreaker := (cbS4after1.fire 0 .ok).1

/-- See `cbS4after1`. -/
def cbS4after3 : CircuitBreaker := (cbS4after2.fire 0 .ok).1

/-- C5: while OPEN with `now < nextAttempt`, `fire` rejects immediately
(`CircuitOpen` result, `rejected` incremented, command never executed,
state still OPEN); once `now ≥ nextAttempt` the breaker moves to
HALF_OPEN and runs exactly one probe; a CLOSED breaker never lands in
HALF_OPEN from a single `fire`; and the three S4 jobs fired while OPEN
are all rejected, leaving `rejected = 3` with no external call. -/
theorem c5_open_rejects_and_half_open_probe (cb : CircuitBreaker)
    (now : Nat) (outcome : CmdOutcome) :
    (cb.state = .OPEN → now < cb.nextAttempt →
       (cb.fire now outcome).1.metrics.rejected = cb.metrics.rejected + 1 ∧
       (cb.fire now outcome).2.1 = .rejectedOpen ∧
       (cb.fire now outcome).2.2 = false ∧
       (cb.fire now outcome).1.state = .OPEN) ∧
    (cb.state = .OPEN → cb.nextAttempt ≤ now →
       (cb.fire now outcome).2.2 = true ∧
       (cb.fire now outcome).1 =
         ((({ cb with metrics :=
               { cb.metrics with total := cb.metrics.total + 1 } }).transition
             .HALF_OPEN now).execute now outcome).1) ∧
    (cb.state = .CLOSED → (cb.fire now outcome).1.state ≠ .HALF_OPEN) ∧
    (cbS4after3.metrics.rejected = 3 ∧
     (cbOpenTelegram.fire 0 .ok).2.2 = false ∧
     (cbS4after1.fire 0 .ok).2.2 = false ∧
     (cbS4after2.fire 0 .ok).2.2 = false) := by
  refine ⟨?_, ?_, ?_, by decide, by decide, by decide, by decide⟩
  · intro hOpen hlt
    simp only [CircuitBreaker.fire, hOpen, ite_true]
    rw [if_neg (by omega)]
    exact ⟨rfl, rfl, rfl, rfl⟩
  · intro hOpen hle
    simp only [CircuitBreaker.fire, hOpen, ite_true]
    rw [if_pos (by omega)]
    exact ⟨rfl, rfl⟩
  · intro hClosed
    simp only [CircuitBreaker.fire, hClosed]
    rw [if_neg (by decide)]
    cases outcome <;>
      simp only [CircuitBreaker.execute, CircuitBreaker.onSuccess,
        CircuitBreaker.onFailure, CircuitBreaker.transition] <;>
      split <;> simp_all

/-- Witness for C5: the first S4 rejection, the probe after the window,
and a CLOSED fire, all concrete. -/
theorem c5_open_rejects_and_half_open_probe_witness :
    ((cbOpenTelegram.fire 0 .ok).1.metrics.rejected =
        cbOpenTelegram.metrics.rejected + 1 ∧
      (cbOpenTelegram.fire 0 .ok).2.1 = .rejectedOpen ∧
      (cbOpenTelegram.fire 0 .ok).2.2 = false ∧
      (cbOpenTelegram.fire 0 .ok).1.state = .OPEN) ∧
    (cbOpenTelegram.fire 30000 .ok).2.2 = true ∧
    ((CircuitBreaker.mk' ⟨none, none, none⟩).fire 0 .err).1.state
      ≠ .HALF_OPEN :=
  ⟨(c5_open_rejects_and_half_open_probe cbOpenTelegram 0 .ok).1 rfl
      (by decide),
   ((c5_open_rejects_and_half_open_probe cbOpenTelegram 30000 .ok).2.1 rfl
      (by decide)).1,
   (c5_open_rejects_and_half_open_probe (CircuitBreaker.mk' ⟨none, none, none⟩)
      0 .err).2.2.1 rfl⟩

/-- C6 counterexample: a breaker constructed without a `requestTimeout`
option gets the constructor default `5000` ms, not the 10 s the claim
states. -/
theorem c6_counterexample_default_requestTimeout :
    (CircuitBreaker.mk' ⟨none, none, none⟩).requestTimeout = 5000 ∧
    (5000 : Nat) ≠ 10000 :=
  ⟨rfl, by decide⟩

/-- C6 (amended): the per-call deadline defaults to `5000` ms when the
breaker is constructed without a `requestTimeout` option, and a call the
breaker actually executes that exceeds the deadline is treated as a
failure: the `failed` metric and the failure count each grow by one and
the call throws. -/
theorem c6_timeout_counts_as_failure (cb : CircuitBreaker) (now : Nat)
    (hexec : (cb.fire now .timeout).2.2 = true) :
    (CircuitBreaker.mk' ⟨none, none, none⟩).requestTimeout = 5000 ∧
    (cb.fire now .timeout).1.metrics.failed = cb.metrics.failed + 1 ∧
    (cb.fire now .timeout).1.failureCount = cb.failureCount + 1 ∧
    (cb.fire now .timeout).2.1 = .failedThrew := by
  refine ⟨rfl, ?_⟩
  simp only [CircuitBreaker.fire] at hexec ⊢
  by_cases hOpen : cb.state = .OPEN
  · rw [if_pos (by simpa using hOpen)] at hexec ⊢
    by_cases hle : now ≥ cb.nextAttempt
    · rw [if_pos hle] at hexec ⊢
      simp only [CircuitBreaker.execute]
      have h := onFailure_counts
        ((({cb with metrics :=
            { cb.metrics with total := cb.metrics.total + 1 }}).transition
          .HALF_OPEN now)) now
      exact ⟨h.1, h.2.1, by simp⟩
    · rw [if_neg hle] at hexec
      exact absurd hexec (by simp)
  · rw [if_neg (by simpa using hOpen)] at hexec ⊢
    simp only [CircuitBreaker.execute]
    have h := onFailure_counts
      ({cb with metrics :=
          { cb.metrics with total := cb.metrics.total + 1 }}) now
    exact ⟨h.1, h.2.1, by simp⟩

/-- Witness for C6: a fresh default breaker times out at `now = 0`. -/
theorem c6_timeout_counts_as_failure_witness :
    ((CircuitBreaker.mk' ⟨none, none, none⟩).fire 0 .timeout).2.2 = true ∧
    ((CircuitBreaker.mk' ⟨none, none, none⟩).fire 0 .timeout).1.metrics.failed
      = (CircuitBreaker.mk' ⟨none, none, none⟩).metrics.failed + 1 :=
  ⟨by decide,
   (c6_timeout_counts_as_failure (CircuitBreaker.mk' ⟨none, none, none⟩) 0
      (by decide)).2.1⟩

/-- C10: each completed `fire` preserves the ledger
`total = success + failed + rejected` and never decreases any counter. -/
theorem c10_metrics_ledger (cb : CircuitBreaker) (now : Nat)
    (outcome : CmdOutcome)
    (h : cb.metrics.total =
      cb.metrics.success + cb.metrics.failed + cb.metrics.rejected) :
    ((cb.fire now outcome).1.metrics.total =
       (cb.fire now outcome).1.metrics.success +
       (cb.fire now outcome).1.metrics.failed +
       (cb.fire now outcome).1.metrics.rejected) ∧
    cb.metrics.total ≤ (cb.fire now outcome).1.metrics.total ∧
    cb.metrics.success ≤ (cb.fire now outcome).1.metrics.success ∧
    cb.metrics.failed ≤ (cb.fire now outcome).1.metrics.failed ∧
    cb.metrics.rejected ≤ (cb.fire now outcome).1.metrics.rejected := by
  simp only [CircuitBreaker.fire]
  split
  · split
    · cases outcome <;>
        simp only [CircuitBreaker.execute, CircuitBreaker.onSuccess,
          CircuitBreaker.onFailure, CircuitBreaker.transition] <;>
        split <;> simp <;> omega
    · simp
      omega
  · cases outcome <;>
      simp only [CircuitBreaker.execute, CircuitBreaker.onSuccess,
        CircuitBreaker.onFailure, CircuitBreaker.transition] <;>
      split <;> simp <;> omega

/-- Witness for C10 on a fresh default breaker. -/
theorem c10_metrics_ledger_witness :
    (CircuitBreaker.mk' ⟨none, none, none⟩).metrics.total =
      (CircuitBreaker.mk' ⟨none, none, none⟩).metrics.success +
      (CircuitBreaker.mk' ⟨none, none, none⟩).metrics.failed +
      (CircuitBreaker.mk' ⟨none, none, none⟩).metrics.rejected ∧
    (((CircuitBreaker.mk' ⟨none, none, none⟩).fire 0 .ok).1.metrics.total =
      ((CircuitBreaker.mk' ⟨none, none, none⟩).fire 0 .ok).1.metrics.success +
      ((CircuitBreaker.mk' ⟨none, none, none⟩).fire 0 .ok).1.metrics.failed +
      ((CircuitBreaker.mk' ⟨none, none, none⟩).fire 0 .ok).1.metrics.rejected) :=
  ⟨by decide,
   (c10_metrics_ledger (CircuitBreaker.mk' ⟨none, none, none⟩) 0 .ok
      (by decide)).1⟩

/-! ## Kernel shutdown claim theorems -/

/-- A shutdown run in which closing the plugins throws and every other
subsystem would have closed cleanly. -/
def stopPluginsFail : StopResults :=
  { pluginsStop := false, queueDisconnect := true, repoDisconnect := true,
    storageDisconnect := true, busDisconnect := true }

/-- C7 counterexample: when `pluginLoader.stopAll()` rejects, `Kernel.stop`
attempts no further close — the queue, repository, storage and bus
disconnects are all skipped, refuting the claim that one subsystem's
failure never prevents the later ones from attempting. -/
theorem c7_counterexample_shutdown_aborts_on_error :
    (Kernel.stop stopPluginsFail).1 = [Subsystem.plugins] ∧
    Subsystem.bus ∉ (Kernel.stop stopPluginsFail).1 ∧
    (Kernel.stop stopPluginsFail).2 = false :=
  ⟨by decide, by decide, by decide⟩

/-- C7 (amended): `Kernel.stop` closes plugins, queue manager, repository,
storage and bus sequentially inside one `try` block; each subsystem is
attempted exactly when every earlier close succeeded, and the sequence
reports clean shutdown exactly when all five succeed (otherwise the first
error aborts the rest and is rethrown). -/
theorem c7_sequential_shutdown_prefix (r : StopResults) :
    Subsystem.plugins ∈ (Kernel.stop r).1 ∧
    (Subsystem.queue ∈ (Kernel.stop r).1 ↔ r.pluginsStop = true) ∧
    (Subsystem.repository ∈ (Kernel.stop r).1 ↔
      (r.pluginsStop = true ∧ r.queueDisconnect = true)) ∧
    (Subsystem.storage ∈ (Kernel.stop r).1 ↔
      (r.pluginsStop = true ∧ r.queueDisconnect = true ∧
       r.repoDisconnect = true)) ∧
    (Subsystem.bus ∈ (Kernel.stop r).1 ↔
      (r.pluginsStop = true ∧ r.queueDisconnect = true ∧
       r.repoDisconnect = true ∧ r.storageDisconnect = true)) ∧
    ((Kernel.stop r).2 = true ↔
      (r.pluginsStop = true ∧ r.queueDisconnect = true ∧
       r.repoDisconnect = true ∧ r.storageDisconnect = true ∧
       r.busDisconnect = true)) := by
  obtain ⟨a, b, c, d, e⟩ := r
  cases a <;> cases b <;> cases c <;> cases d <;> cases e <;> decide

end Discoat
